import Mathlib

/-!
Shallow embedding of the autonomous portfolio decision-and-execution loop:
`src/types/analysis.ts` / `src/types/agent.ts` (data model),
`src/services/TradeExecutor.ts` (trade simulation),
`src/agents/PortfolioAgent.ts` (agent state machine and decision pipeline),
`src/services/AgentMonitor.ts` (supervisor).

Conventions: JS `number` is modelled as `ℚ` (the source performs only
field arithmetic, comparisons, `Math.floor`, `Math.round`, `Math.min`,
`Math.max` on these values); `Date` is modelled as epoch milliseconds
(`Nat`); every call to `Math.random()` is an explicit `ℚ` parameter
(a draw in `[0,1)`); optional / possibly-`undefined` fields are
`Option`; JS truthiness tests on optional numbers check both presence
and non-zeroness.  Natural-language string fields (reasoning text,
alert messages, ids) that no verified property inspects are either
kept as plain strings or elided.
-/

namespace Advisory

/-- Source `AutonomyLevel` from `src/types/agent.ts`. -/
inductive AutonomyLevel
  | FULL_AUTO
  | SEMI_AUTO
  | ADVISORY_ONLY
deriving DecidableEq

/-- Recommendation priority (`'LOW' | 'MEDIUM' | 'HIGH' | 'CRITICAL'`). -/
inductive Priority
  | LOW
  | MEDIUM
  | HIGH
  | CRITICAL
deriving DecidableEq

/-- Source `RecommendationType` from `src/types/analysis.ts`. -/
inductive RecommendationType
  | REBALANCE
  | SELL
  | BUY
  | HEDGE
  | REDUCE_CONCENTRATION
  | IMPROVE_DIVERSIFICATION
  | CREDIT_RISK_MITIGATION
  | DURATION_ADJUSTMENT
  | YIELD_ENHANCEMENT
deriving DecidableEq

/-- Source `DecisionType` from `src/types/agent.ts`. -/
inductive DecisionType
  | AUTO_REBALANCE
  | RISK_MITIGATION
  | YIELD_OPTIMIZATION
  | EMERGENCY_HEDGE
  | LIQUIDITY_MANAGEMENT
  | OPPORTUNISTIC_TRADE
deriving DecidableEq

/-- Source `DecisionStatus` from `src/types/agent.ts`. -/
inductive DecisionStatus
  | PENDING
  | APPROVED
  | EXECUTING
  | COMPLETED
  | REJECTED
  | FAILED
  | CANCELLED
deriving DecidableEq

/-- Trade execution status (`'PENDING' | 'FILLED' | 'PARTIAL' | 'CANCELLED' | 'FAILED'`);
the source's `PARTIAL` is spelled `PARTIAL_FILL` here. -/
inductive TradeStatus
  | PENDING
  | FILLED
  | PARTIAL_FILL
  | CANCELLED
  | FAILED
deriving DecidableEq

/-- Source `AssetType` from `src/types/portfolio.ts`. -/
inductive AssetKind
  | LOAN
  | SECURITY
deriving DecidableEq

/-- Source `SecurityType` from `src/types/portfolio.ts`. -/
inductive SecurityType
  | BOND
  | STOCK
  | ETF
  | MBS
  | ABS
  | TREASURY
deriving DecidableEq

/-- The fields of `Asset` (and the `securityType` field of the `Security`
subtype, read via an `as any` cast in the executor) that the executor and
agent consult.  `securityType` is `none` for loans. -/
structure Asset where
  name : String
  type : AssetKind
  securityType : Option SecurityType
  currentPrice : ℚ
  quantity : ℚ
  marketValue : ℚ
deriving DecidableEq

/-- Source `'BUY' | 'SELL'`. -/
inductive TradeAction
  | BUY
  | SELL
deriving DecidableEq

/-- Source `'MARKET' | 'LIMIT' | 'SMART'`. -/
inductive OrderType
  | MARKET
  | LIMIT
  | SMART
deriving DecidableEq

/-- Source `TradeOrder` from `src/services/TradeExecutor.ts`. -/
structure TradeOrder where
  asset : Asset
  action : TradeAction
  quantity : ℚ
  orderType : OrderType
  limitPrice : Option ℚ
  slippageTolerance : ℚ
deriving DecidableEq

/-- Source `TradeExecution` from `src/types/agent.ts` (the `id`/`timestamp`
bookkeeping fields are elided; no verified property reads them). -/
structure TradeExecution where
  asset : Asset
  action : TradeAction
  quantity : ℚ
  price : ℚ
  status : TradeStatus
deriving DecidableEq

namespace TradeExecutor

/-- Source `TradeExecutor.getEstimatedDailyVolume`. -/
def getEstimatedDailyVolume (asset : Asset) : ℚ :=
  let baseVolume := asset.marketValue * (1 / 10)
  if asset.type = AssetKind.SECURITY then
    match asset.securityType with
    | some SecurityType.TREASURY => baseVolume * 10
    | some SecurityType.STOCK => baseVolume * 5
    | some SecurityType.BOND => baseVolume * 2
    | some SecurityType.MBS => baseVolume * (1 / 2)
    | some SecurityType.ABS => baseVolume * (1 / 2)
    | _ => baseVolume
  else if asset.type = AssetKind.LOAN then
    baseVolume * (1 / 10)
  else
    baseVolume

/-- Source `TradeExecutor.calculateMarketImpact`. -/
def calculateMarketImpact (order : TradeOrder) : ℚ :=
  let estimatedDailyVolume := getEstimatedDailyVolume order.asset
  let tradeSizeFrac := (order.quantity * order.asset.currentPrice) / estimatedDailyVolume
  let impact := tradeSizeFrac * (1 / 1000)
  let impact :=
    if order.asset.type = AssetKind.LOAN then impact * 3
    else if order.asset.type = AssetKind.SECURITY then
      match order.asset.securityType with
      | some SecurityType.TREASURY => impact * (3 / 10)
      | some SecurityType.MBS => impact * 2
      | some SecurityType.ABS => impact * 2
      | _ => impact
    else impact
  min impact (1 / 20)

/-- Source `TradeExecutor.calculateSlippage`; `volDraw` is the `Math.random()`
draw for the volatility multiplier. -/
def calculateSlippage (order : TradeOrder) (volDraw : ℚ) : ℚ :=
  let baseSlippage : ℚ := 1 / 1000
  let baseSlippage :=
    if order.orderType = OrderType.MARKET then baseSlippage * (3 / 2)
    else if order.orderType = OrderType.SMART then baseSlippage * (7 / 10)
    else baseSlippage
  let volatilityMultiplier := (4 / 5 : ℚ) + volDraw * (2 / 5)
  let baseSlippage := baseSlippage * volatilityMultiplier
  min baseSlippage order.slippageTolerance

/-- JS `Math.round` (half away from zero is half up for the non-negative
prices at play): `⌊x + 1/2⌋`. -/
def jsRound (x : ℚ) : ℤ := ⌊x + 1 / 2⌋

/-- Source `TradeExecutor.calculateExecutionPrice`.  The JS guard
`order.orderType === 'LIMIT' && order.limitPrice` is truthiness on the
optional limit price, hence the `lp ≠ 0` test. -/
def calculateExecutionPrice (order : TradeOrder) (marketImpact slippage : ℚ) : ℚ :=
  let executionPrice := order.asset.currentPrice
  let totalImpact := marketImpact + slippage
  let executionPrice :=
    match order.action with
    | TradeAction.BUY => executionPrice * (1 + totalImpact)
    | TradeAction.SELL => executionPrice * (1 - totalImpact)
  let executionPrice :=
    if order.orderType = OrderType.LIMIT then
      match order.limitPrice with
      | some lp =>
        if lp ≠ 0 then
          match order.action with
          | TradeAction.BUY => min executionPrice lp
          | TradeAction.SELL => max executionPrice lp
        else executionPrice
      | none => executionPrice
    else executionPrice
  (jsRound (executionPrice * 10000) : ℚ) / 10000

/-- Source `TradeExecutor.calculateExecutedQuantity`; `fillDraw` is the
`Math.random()` draw for the fill rate (`fillRate = 0.6 + fillDraw * 0.4`). -/
def calculateExecutedQuantity (order : TradeOrder) (fillDraw : ℚ) : ℚ :=
  let orderValue := order.quantity * order.asset.currentPrice
  let estimatedDailyVolume := getEstimatedDailyVolume order.asset
  if orderValue > estimatedDailyVolume * (1 / 10) then
    let fillRate := (3 / 5 : ℚ) + fillDraw * (2 / 5)
    ((⌊order.quantity * fillRate⌋ : ℤ) : ℚ)
  else
    order.quantity

/-- The three `Math.random()` draws one `simulateTradeExecution` call
consumes: success test, slippage volatility, fill rate. -/
structure Draws where
  failDraw : ℚ
  volDraw : ℚ
  fillDraw : ℚ
deriving DecidableEq

/-- Source `TradeExecutor.simulateTradeExecution` (the simulated delay and the
generated trade id are elided).  `executionSuccess = Math.random() > 0.05`. -/
def simulateTradeExecution (order : TradeOrder) (d : Draws) : TradeExecution :=
  let marketImpact := calculateMarketImpact order
  let slippage := calculateSlippage order d.volDraw
  let executionPrice := calculateExecutionPrice order marketImpact slippage
  if d.failDraw > (1 / 20 : ℚ) then
    let executedQuantity := calculateExecutedQuantity order d.fillDraw
    let status :=
      if executedQuantity = order.quantity then TradeStatus.FILLED
      else TradeStatus.PARTIAL_FILL
    { asset := order.asset, action := order.action, quantity := executedQuantity,
      price := executionPrice, status := status }
  else
    { asset := order.asset, action := order.action, quantity := order.quantity,
      price := 0, status := TradeStatus.FAILED }

/-- Source `TradeExecutor.executeTrade` with `mockMode = true` (the constructor
default used by `PortfolioAgent`): it delegates to the simulator; the
surrounding `try/catch` never fires because the simulator does not throw. -/
def executeTrade (order : TradeOrder) (d : Draws) : TradeExecution :=
  simulateTradeExecution order d

end TradeExecutor

/-- Source `ActionItem.action` values. -/
inductive ItemAction
  | SELL
  | BUY
  | REDUCE
  | INCREASE
  | HEDGE
deriving DecidableEq

/-- The `Impact` estimates attached to a recommendation (`timeframe`
elided). -/
structure Impact where
  riskReduction : Option ℚ
  yieldImprovement : Option ℚ
  diversificationImprovement : Option ℚ
  estimatedCost : Option ℚ
deriving DecidableEq

/-- Source `ActionItem` from `src/types/analysis.ts` (text rationale elided). -/
structure ActionItem where
  asset : Option Asset
  action : ItemAction
  quantity : Option ℚ
  percentage : Option ℚ
deriving DecidableEq

/-- Source `Recommendation` from `src/types/analysis.ts` (the text fields
`title`, `description`, `reasoning` and the `id` are elided). -/
structure Recommendation where
  type : RecommendationType
  priority : Priority
  actionItems : List ActionItem
  impact : Impact
deriving DecidableEq

/-- Source `TradingHours` (only the fields the agent reads; the `HH:MM` strings
are modelled by their parsed hour values). -/
structure TradingHours where
  startHour : Nat
  endHour : Nat
  excludeWeekends : Bool
deriving DecidableEq

/-- Source `TradingLimits` from `src/types/agent.ts`.  Note: it carries a daily
notional-volume bound and an hourly trade-count bound, but no daily
trade-count bound. -/
structure TradingLimits where
  maxDailyTradeVolume : ℚ
  maxSingleTradeSize : ℚ
  maxTradesPerHour : Nat
  tradingHours : TradingHours
deriving DecidableEq

/-- Source `ExecutionSettings` (fields the agent reads). -/
structure ExecutionSettings where
  slippageTolerance : ℚ
  orderType : OrderType
  simulationMode : Bool
deriving DecidableEq

/-- Source `RiskLimits` (fields the agent reads in `checkRiskLimits`). -/
structure RiskLimits where
  maxSingleAssetWeight : ℚ
  maxDailyVaR : ℚ
deriving DecidableEq

/-- Source `AgentConfig` (fields the embedded operations read). -/
structure AgentConfig where
  enabled : Bool
  autonomyLevel : AutonomyLevel
  riskLimits : RiskLimits
  tradingLimits : TradingLimits
  executionSettings : ExecutionSettings
deriving DecidableEq

/-- Source `ExecutionDetails` from `src/types/agent.ts` (`executionTime` and the
aggregated `slippage` average are elided; `errors` keeps the names of the
assets whose trades failed, standing for the formatted error strings). -/
structure ExecutionDetails where
  trades : List TradeExecution
  totalCost : ℚ
  success : Bool
  errors : List String
deriving DecidableEq

/-- Source `AgentDecision` from `src/types/agent.ts` (generated text fields
`reasoning` and `riskAssessment`, the `id`, and the `expectedOutcome`
record are elided; no verified property reads them). -/
structure AgentDecision where
  timestamp : Nat
  decisionType : DecisionType
  recommendation : Recommendation
  confidence : ℚ
  status : DecisionStatus
  executionDetails : Option ExecutionDetails
deriving DecidableEq

/-- Agent lifecycle status. -/
inductive AgentStatus
  | ACTIVE
  | PAUSED
  | STOPPED
  | ERROR
deriving DecidableEq

/-- Alert severity. -/
inductive Severity
  | LOW
  | MEDIUM
  | HIGH
  | CRITICAL
deriving DecidableEq

/-- Source `AlertType`. -/
inductive AlertType
  | RISK_LIMIT_BREACH
  | TRADING_LIMIT_EXCEEDED
  | MARKET_ANOMALY
  | EXECUTION_FAILURE
  | DATA_QUALITY
  | SYSTEM_ERROR
deriving DecidableEq

/-- Source `Alert` (timestamp elided; `id` is a `Nat`). -/
structure Alert where
  id : Nat
  severity : Severity
  type : AlertType
  message : String
  acknowledged : Bool
deriving DecidableEq

/-- The mutable `AgentState` fields the embedded operations touch
(`currentPortfolio`, `watchlist`, `successRate` and the performance
snapshot are carried opaquely elsewhere). -/
structure AgentState where
  status : AgentStatus
  lastDecision : Nat
  totalDecisions : Nat
  alerts : List Alert
deriving DecidableEq

/-- The `PortfolioAgent` object: its config, its mutable state, its
private decision history, and whether the 60s cycle timer is scheduled
(`intervalId !== undefined`). -/
structure Agent where
  config : AgentConfig
  state : AgentState
  decisionHistory : List AgentDecision
  timerScheduled : Bool
deriving DecidableEq

namespace PortfolioAgent

/-- Source `PortfolioAgent.addAlert`: push the new alert, then trim to the most
recent 50 (`slice(-50)`) once the log exceeds 100 entries.  `newId`
stands for the generated `alert-${Date.now()}` id. -/
def addAlert (alerts : List Alert) (newId : Nat) (severity : Severity)
    (type : AlertType) (message : String) : List Alert :=
  let alerts := alerts ++
    [{ id := newId, severity := severity, type := type, message := message,
       acknowledged := false }]
  if alerts.length > 100 then alerts.drop (alerts.length - 50) else alerts

/-- Source `PortfolioAgent.start` (`newId` stands for the generated alert id). -/
def start (ag : Agent) (newId : Nat) : Agent :=
  if !ag.config.enabled then
    { ag with state := { ag.state with
        alerts := addAlert ag.state.alerts newId Severity.HIGH AlertType.SYSTEM_ERROR
          "Cannot start agent: configuration disabled" } }
  else
    { ag with
      state := { ag.state with
        status := AgentStatus.ACTIVE,
        alerts := addAlert ag.state.alerts newId Severity.LOW AlertType.SYSTEM_ERROR
          "Portfolio Agent started" },
      timerScheduled := true }

/-- Source `PortfolioAgent.stop`. -/
def stop (ag : Agent) (newId : Nat) : Agent :=
  { ag with
    state := { ag.state with
      status := AgentStatus.STOPPED,
      alerts := addAlert ag.state.alerts newId Severity.LOW AlertType.SYSTEM_ERROR
        "Portfolio Agent stopped" },
    timerScheduled := false }

/-- Source `PortfolioAgent.pause`. -/
def pause (ag : Agent) (newId : Nat) : Agent :=
  { ag with
    state := { ag.state with
      status := AgentStatus.PAUSED,
      alerts := addAlert ag.state.alerts newId Severity.LOW AlertType.SYSTEM_ERROR
        "Portfolio Agent paused" } }

/-- Source `PortfolioAgent.calculateConfidence`.  The JS truthiness guard
`impact?.riskReduction && impact.riskReduction > 0.2` is subsumed by the
`> 0.2` comparison on the present value. -/
def calculateConfidence (r : Recommendation) : ℚ :=
  let baseConfidence : ℚ :=
    match r.priority with
    | Priority.CRITICAL => 9 / 10
    | Priority.HIGH => 4 / 5
    | Priority.MEDIUM => 7 / 10
    | Priority.LOW => 3 / 5
  let baseConfidence :=
    match r.impact.riskReduction with
    | some rr => if rr > (1 / 5 : ℚ) then baseConfidence + 1 / 10 else baseConfidence
    | none => baseConfidence
  min baseConfidence 1

/-- Source `PortfolioAgent.mapRecommendationToDecisionType`. -/
def mapRecommendationToDecisionType : RecommendationType → DecisionType
  | RecommendationType.REBALANCE => DecisionType.AUTO_REBALANCE
  | RecommendationType.CREDIT_RISK_MITIGATION => DecisionType.RISK_MITIGATION
  | RecommendationType.YIELD_ENHANCEMENT => DecisionType.YIELD_OPTIMIZATION
  | RecommendationType.HEDGE => DecisionType.EMERGENCY_HEDGE
  | _ => DecisionType.OPPORTUNISTIC_TRADE

/-- Source `PortfolioAgent.shouldAutoExecute` (evaluated on the freshly built
`PENDING` decision). -/
def shouldAutoExecute (config : AgentConfig) (decision : AgentDecision) : Bool :=
  if config.autonomyLevel = AutonomyLevel.ADVISORY_ONLY then false
  else if config.executionSettings.simulationMode then false
  else if decision.confidence < (7 / 10 : ℚ) then false
  else if decision.decisionType = DecisionType.EMERGENCY_HEDGE ∨
      (decision.recommendation.priority = Priority.CRITICAL ∧
        decision.confidence > (4 / 5 : ℚ)) then
    decide (config.autonomyLevel = AutonomyLevel.FULL_AUTO)
  else if decision.recommendation.priority = Priority.HIGH ∧
      decision.confidence > (17 / 20 : ℚ) then
    decide (config.autonomyLevel = AutonomyLevel.FULL_AUTO)
  else
    decide (config.autonomyLevel = AutonomyLevel.FULL_AUTO ∧
      decision.recommendation.priority ≠ Priority.LOW ∧
      decision.confidence > (9 / 10 : ℚ))

/-- Source `PortfolioAgent.calculateTradeQuantity` (JS truthiness: a present but
zero `quantity`/`percentage` falls through). -/
def calculateTradeQuantity (item : ActionItem) : ℚ :=
  match item.quantity with
  | some q =>
    if q ≠ 0 then q else
      match item.percentage, item.asset with
      | some p, some a => if p ≠ 0 then a.quantity * p else 0
      | _, _ => 0
  | none =>
    match item.percentage, item.asset with
    | some p, some a => if p ≠ 0 then a.quantity * p else 0
    | _, _ => 0

/-- The orders `PortfolioAgent.executeRecommendation` submits: one per
action item that names a concrete asset, with the action mapped to
BUY for `BUY`/`INCREASE` and SELL otherwise, and order type / slippage
tolerance taken from the agent's execution settings.  No limit price is
ever set. -/
def ordersOf (config : AgentConfig) (rec : Recommendation) : List TradeOrder :=
  rec.actionItems.filterMap fun item =>
    match item.asset with
    | some a => some
      { asset := a,
        action :=
          if item.action = ItemAction.BUY ∨ item.action = ItemAction.INCREASE
          then TradeAction.BUY else TradeAction.SELL,
        quantity := calculateTradeQuantity item,
        orderType := config.executionSettings.orderType,
        limitPrice := none,
        slippageTolerance := config.executionSettings.slippageTolerance }
    | none => none

/-- Source `PortfolioAgent.executeRecommendation`: execute each order, summing
`price * quantity` into the total cost and collecting one error per
FAILED trade; `success` iff no errors.  `draws i` supplies the random
draws consumed by the `i`-th executed trade.  (`executionTime` and the
never-updated `totalSlippage` are elided; the surrounding `try/catch`
is dead because the mock executor does not throw.) -/
def executeRecommendation (config : AgentConfig) (rec : Recommendation)
    (draws : Nat → TradeExecutor.Draws) : ExecutionDetails :=
  let orders := ordersOf config rec
  let trades := orders.mapIdx fun i o => TradeExecutor.executeTrade o (draws i)
  let totalCost := (trades.map fun t => t.price * t.quantity).sum
  let errors := trades.filterMap fun t =>
    if t.status = TradeStatus.FAILED then some t.asset.name else none
  { trades := trades, totalCost := totalCost, success := errors.isEmpty,
    errors := errors }

/-- Source `PortfolioAgent.executeDecision`: build the `PENDING` decision
(confidence from `calculateConfidence`), auto-execute it when
`shouldAutoExecute` allows (APPROVED is transient in the source: the
final status is COMPLETED on success, FAILED otherwise), then append it
to the history, bump the decision counter and refresh the last-decision
timestamp.  Returns the updated agent and the recorded decision. -/
def executeDecision (ag : Agent) (rec : Recommendation) (now : Nat)
    (draws : Nat → TradeExecutor.Draws) : Agent × AgentDecision :=
  let decision : AgentDecision :=
    { timestamp := now,
      decisionType := mapRecommendationToDecisionType rec.type,
      recommendation := rec,
      confidence := calculateConfidence rec,
      status := DecisionStatus.PENDING,
      executionDetails := none }
  let decision :=
    if shouldAutoExecute ag.config decision then
      let details := executeRecommendation ag.config rec draws
      { decision with
        status :=
          if details.success then DecisionStatus.COMPLETED else DecisionStatus.FAILED,
        executionDetails := some details }
    else decision
  ({ ag with
      decisionHistory := ag.decisionHistory ++ [decision],
      state := { ag.state with
        totalDecisions := ag.state.totalDecisions + 1,
        lastDecision := now } },
    decision)

/-- Milliseconds per day / per hour, for the `Date` arithmetic in the
trading-limit counters. -/
def msPerDay : Nat := 86400000

def msPerHour : Nat := 3600000

/-- Source `toDateString()` equality on two epoch-millisecond timestamps:
same calendar day. -/
def sameDay (a b : Nat) : Bool := a / msPerDay = b / msPerDay

/-- The trades of one decision (`d.executionDetails?.trades || []`). -/
def tradesOf (d : AgentDecision) : List TradeExecution :=
  match d.executionDetails with
  | some details => details.trades
  | none => []

/-- Source `PortfolioAgent.getTodayTrades`. -/
def getTodayTrades (history : List AgentDecision) (now : Nat) : List TradeExecution :=
  ((history.filter fun d => sameDay d.timestamp now).map tradesOf).flatten

/-- Source `PortfolioAgent.getHourlyTrades` (`d.timestamp > now - 3600000`). -/
def getHourlyTrades (history : List AgentDecision) (now : Nat) : List TradeExecution :=
  ((history.filter fun d => decide (now - msPerHour < d.timestamp)).map tradesOf).flatten

/-- Source `PortfolioAgent.isWithinTradingLimits`: today's trade count against
`maxTradesPerHour * 24`, and the last hour's trade count against
`maxTradesPerHour`. -/
def isWithinTradingLimits (config : AgentConfig) (history : List AgentDecision)
    (now : Nat) : Bool :=
  let todayTrades := getTodayTrades history now
  let hourlyTrades := getHourlyTrades history now
  decide (todayTrades.length < config.tradingLimits.maxTradesPerHour * 24) &&
  decide (hourlyTrades.length < config.tradingLimits.maxTradesPerHour)

end PortfolioAgent

namespace AgentMonitor

/-- Source `MonitoringConfig` (fields the shutdown path reads). -/
structure MonitoringConfig where
  checkInterval : Nat
  emergencyContacts : List String
deriving DecidableEq

/-- The monitor: registered agents (each paired with a fault flag telling
whether its `stop()` call throws, modelling the `try/catch` around the
best-effort stop loop), the one-shot shutdown flag, whether the sweep
timer is scheduled (`intervalId !== undefined`), and the log of
emergency notifications sent so far (one entry per notified contact). -/
structure Monitor where
  agents : List (Agent × Bool)
  config : MonitoringConfig
  monitoringActive : Bool
  emergencyShutdownActive : Bool
  notificationsSent : List String
deriving DecidableEq

/-- Source `AgentMonitor.stopMonitoring`: clear the sweep interval. -/
def stopMonitoring (m : Monitor) : Monitor :=
  { m with monitoringActive := false }

/-- Source `AgentMonitor.sendEmergencyNotification`: one notification per
configured emergency contact. -/
def sendEmergencyNotification (m : Monitor) : Monitor :=
  { m with notificationsSent := m.notificationsSent ++ m.config.emergencyContacts }

/-- Source `AgentMonitor.emergencyShutdown`: no-op while a shutdown is already
active; otherwise set the flag, best-effort `stop()` every registered
agent (an agent whose stop throws is left as-is and the loop continues),
send the notification batch, and stop the monitor's own sweep.  The
`stopId` stands for the alert id `PortfolioAgent.stop` generates. -/
def emergencyShutdown (m : Monitor) (stopId : Nat) : Monitor :=
  if m.emergencyShutdownActive then m
  else
    let m := { m with emergencyShutdownActive := true }
    let m := { m with agents := m.agents.map fun p =>
      if p.2 then p else (PortfolioAgent.stop p.1 stopId, p.2) }
    let m := sendEmergencyNotification m
    stopMonitoring m

end AgentMonitor

/-!
Reference-semantics model for `PortfolioAgent.getState` and
`AgentMonitor.acknowledgeAlert`.  `getState` is `return { ...this.state }`
— a *shallow* spread: the top-level fields are copied into a fresh
object, but nested objects (the `alerts` array, `currentPortfolio`,
`performance`) are shared by reference.  To reason about that sharing we
model the alerts array as living in a heap addressed by `Nat`, with the
agent state holding the address.
-/

/-- The observable `AgentState` object with its nested alerts array held
by reference (address into the heap). -/
structure StateObj where
  status : AgentStatus
  totalDecisions : Nat
  alertsRef : Nat
deriving DecidableEq

/-- A heap of alert arrays. -/
def Heap : Type := Nat → List Alert

/-- Heap update at one address. -/
def heapUpdate (h : Heap) (r : Nat) (v : List Alert) : Heap :=
  fun x => if x = r then v else h x

namespace PortfolioAgent

/-- Source `PortfolioAgent.getState`: `return { ...this.state }` — a fresh
top-level object whose fields, including the nested `alertsRef`, equal
the agent's own. -/
def getState (s : StateObj) : StateObj :=
  { status := s.status, totalDecisions := s.totalDecisions, alertsRef := s.alertsRef }

end PortfolioAgent

namespace AgentMonitor

/-- Set `acknowledged := true` on the first alert with the given id
(JS `find` returns the first match, which is then mutated in place). -/
def ackFirst : List Alert → Nat → List Alert
  | [], _ => []
  | a :: rest, i =>
    if a.id = i then { a with acknowledged := true } :: rest
    else a :: ackFirst rest i

/-- Source `AgentMonitor.acknowledgeAlert` on a registered agent: take the
agent's `getState()` snapshot, look the alert up in the snapshot's
(shared) alerts array, and mutate its `acknowledged` flag in place.
Returns the updated heap and the success flag. -/
def acknowledgeAlert (h : Heap) (s : StateObj) (alertId : Nat) : Heap × Bool :=
  let snap := PortfolioAgent.getState s
  let alerts := h snap.alertsRef
  if (alerts.find? fun a => decide (a.id = alertId)).isSome then
    (heapUpdate h snap.alertsRef (ackFirst alerts alertId), true)
  else
    (h, false)

end AgentMonitor

/-! Concrete inputs used to instantiate the theorems below. -/

/-- A loan asset: market value 100, price 100, one unit held. -/
def loanAsset : Asset :=
  { name := "L1", type := AssetKind.LOAN, securityType := none,
    currentPrice := 100, quantity := 1, marketValue := 100 }

/-- A stock: price 200. -/
def stockAsset : Asset :=
  { name := "S1", type := AssetKind.SECURITY, securityType := some SecurityType.STOCK,
    currentPrice := 200, quantity := 50, marketValue := 10000 }

def sampleHours : TradingHours :=
  { startHour := 9, endHour := 16, excludeWeekends := true }

def sampleTradingLimits : TradingLimits :=
  { maxDailyTradeVolume := 5, maxSingleTradeSize := 1000000,
    maxTradesPerHour := 1, tradingHours := sampleHours }

def sampleRiskLimits : RiskLimits :=
  { maxSingleAssetWeight := 1 / 5, maxDailyVaR := 500000 }

def sampleExecutionSettings : ExecutionSettings :=
  { slippageTolerance := 1 / 50, orderType := OrderType.MARKET,
    simulationMode := false }

def mkConfig (lvl : AutonomyLevel) : AgentConfig :=
  { enabled := true, autonomyLevel := lvl, riskLimits := sampleRiskLimits,
    tradingLimits := sampleTradingLimits,
    executionSettings := sampleExecutionSettings }

def sampleAgentState : AgentState :=
  { status := AgentStatus.STOPPED, lastDecision := 0, totalDecisions := 0, alerts := [] }

/-- An agent configured `ADVISORY_ONLY`, stopped, with empty history. -/
def advisoryAgent : Agent :=
  { config := mkConfig AutonomyLevel.ADVISORY_ONLY, state := sampleAgentState,
    decisionHistory := [], timerScheduled := false }

/-- The same agent with `enabled := false`. -/
def disabledAgent : Agent :=
  { advisoryAgent with config := { mkConfig AutonomyLevel.FULL_AUTO with enabled := false } }

/-- A CRITICAL hedge recommendation carrying one concrete action item. -/
def hedgeRec : Recommendation :=
  { type := RecommendationType.HEDGE, priority := Priority.CRITICAL,
    actionItems := [{ asset := some loanAsset, action := ItemAction.HEDGE,
                      quantity := some 1, percentage := none }],
    impact := { riskReduction := some (1 / 2), yieldImprovement := none,
                diversificationImprovement := none, estimatedCost := none } }

/-- Draws where every trade succeeds with full fill. -/
def benignDraws : Nat → TradeExecutor.Draws :=
  fun _ => { failDraw := 1, volDraw := 0, fillDraw := 1 / 2 }

/-- A generic decision used to instantiate the autonomy-gate theorems. -/
def sampleDecision : AgentDecision :=
  { timestamp := 0, decisionType := DecisionType.EMERGENCY_HEDGE,
    recommendation := hedgeRec, confidence := 1,
    status := DecisionStatus.PENDING, executionDetails := none }

/-- A failure-path execution: `failDraw = 0 ≤ 0.05`. -/
def failingDraws : TradeExecutor.Draws := { failDraw := 0, volDraw := 0, fillDraw := 0 }

/-- Order for the failure-path counterexample: requested quantity 5. -/
def failOrder : TradeOrder :=
  { asset := loanAsset, action := TradeAction.BUY, quantity := 5,
    orderType := OrderType.MARKET, limitPrice := none, slippageTolerance := 1 / 100 }

/-- LIMIT BUY whose limit price `100.00006` is not on the `0.0001`
rounding grid; the raw price (200, zero impact and slippage) is clamped
to the limit and then rounded up past it. -/
def limitOrder : TradeOrder :=
  { asset := stockAsset, action := TradeAction.BUY, quantity := 1,
    orderType := OrderType.LIMIT, limitPrice := some (10000006 / 100000),
    slippageTolerance := 1 / 100 }

/-- LIMIT BUY whose limit price 100 is on the rounding grid. -/
def gridLimitOrder : TradeOrder :=
  { limitOrder with limitPrice := some 100 }

/-- A large loan order: notional `100 > 10% × estimated daily volume (= 1)`,
requested quantity 1. -/
def largeLoanOrder : TradeOrder :=
  { asset := loanAsset, action := TradeAction.SELL, quantity := 1,
    orderType := OrderType.MARKET, limitPrice := none, slippageTolerance := 1 / 100 }

/-- Successful-execution draws with the minimal fill rate (`fillDraw = 0`,
so `fillRate = 0.6`). -/
def minFillDraws : TradeExecutor.Draws := { failDraw := 1, volDraw := 0, fillDraw := 0 }

/-- A FAILED-free trade recorded in past history (used to count trades). -/
def pastTrade : TradeExecution :=
  { asset := loanAsset, action := TradeAction.SELL, quantity := 1, price := 100,
    status := TradeStatus.FILLED }

/-- A past decision holding ten executed trades, stamped two hours into
the day. -/
def pastDecision : AgentDecision :=
  { timestamp := 2 * PortfolioAgent.msPerHour,
    decisionType := DecisionType.AUTO_REBALANCE, recommendation := hedgeRec,
    confidence := 9 / 10, status := DecisionStatus.COMPLETED,
    executionDetails := some
      { trades := List.replicate 10 pastTrade, totalCost := 1000,
        success := true, errors := [] } }

/-- Ten trades already done today (all more than an hour ago), inspected
at hour 10 of the same day. -/
def limitsHistory : List AgentDecision := [pastDecision]

def limitsNow : Nat := 10 * PortfolioAgent.msPerHour

/-- Monitor with one stoppable agent and one whose `stop()` throws. -/
def sampleMonitor : AgentMonitor.Monitor :=
  { agents := [(advisoryAgent, false), (disabledAgent, true)],
    config := { checkInterval := 300000, emergencyContacts := ["ops", "cro"] },
    monitoringActive := true, emergencyShutdownActive := false,
    notificationsSent := [] }

/-- One unacknowledged CRITICAL alert, held at heap address 0. -/
def varAlert : Alert :=
  { id := 7, severity := Severity.CRITICAL, type := AlertType.RISK_LIMIT_BREACH,
    message := "Daily VaR exceeded", acknowledged := false }

def sampleHeap : Heap := fun _ => [varAlert]

def sampleStateObj : StateObj :=
  { status := AgentStatus.ACTIVE, totalDecisions := 3, alertsRef := 0 }

/-! Shared helper lemmas. -/

/-- Under `ADVISORY_ONLY` the autonomy gate is closed for every decision. -/
lemma shouldAutoExecute_advisory (c : AgentConfig) (d : AgentDecision)
    (h : c.autonomyLevel = AutonomyLevel.ADVISORY_ONLY) :
    PortfolioAgent.shouldAutoExecute c d = false := by
  simp [PortfolioAgent.shouldAutoExecute, h]

/-- The alert pushed by `addAlert` is always the last entry of the
resulting log, trimming included. -/
lemma addAlert_getLast? (alerts : List Alert) (nid : Nat) (sev : Severity)
    (t : AlertType) (msg : String) :
    (PortfolioAgent.addAlert alerts nid sev t msg).getLast? =
      some { id := nid, severity := sev, type := t, message := msg,
             acknowledged := false } := by
  unfold PortfolioAgent.addAlert
  dsimp only
  split
  · rw [List.drop_append_of_le_length (by simp)]
    simp [List.length_append]
  · simp

/-- Source `ackFirst` acknowledges a matching alert when one is present. -/
lemma ackFirst_mem (l : List Alert) (i : Nat) (hf : ∃ a ∈ l, a.id = i) :
    ∃ a ∈ AgentMonitor.ackFirst l i, a.id = i ∧ a.acknowledged = true := by
  induction l with
  | nil => simp at hf
  | cons a rest ih =>
    by_cases hid : a.id = i
    · exact ⟨{ a with acknowledged := true }, by simp [AgentMonitor.ackFirst, hid], hid, rfl⟩
    · obtain ⟨b, hb, hbi⟩ := hf
      rcases List.mem_cons.mp hb with hba | hbr
      · exact absurd (hba ▸ hbi) hid
      · obtain ⟨c, hc, hci⟩ := ih ⟨b, hbr, hbi⟩
        exact ⟨c, by simp [AgentMonitor.ackFirst, hid, hc], hci⟩

/-- Division by the rounding denominator is monotone. -/
lemma div10000_mono {a b : ℤ} (h : a ≤ b) : ((a : ℚ)) / 10000 ≤ ((b : ℚ)) / 10000 :=
  (div_le_div_iff_of_pos_right (by norm_num)).mpr (Int.cast_le.mpr h)

/-- Source `jsRound` is monotone. -/
lemma jsRound_mono {x y : ℚ} (h : x ≤ y) :
    TradeExecutor.jsRound x ≤ TradeExecutor.jsRound y :=
  Int.floor_le_floor (by linarith)

/-- Source `jsRound` fixes integers. -/
lemma jsRound_intCast (n : ℤ) : TradeExecutor.jsRound ((n : ℚ)) = n := by
  unfold TradeExecutor.jsRound
  rw [Int.floor_int_add]
  norm_num

/-! Theorems settling the claims. -/

/-- C1: for an agent configured `ADVISORY_ONLY`, `shouldAutoExecute`
returns `false` on every decision, so `executeDecision` records the
decision with status `PENDING` — never `APPROVED`, `COMPLETED` or
`FAILED`. -/
theorem advisory_only_never_completes (ag : Agent) (rec : Recommendation)
    (now : Nat) (draws : Nat → TradeExecutor.Draws)
    (h : ag.config.autonomyLevel = AutonomyLevel.ADVISORY_ONLY) :
    (∀ d : AgentDecision, PortfolioAgent.shouldAutoExecute ag.config d = false) ∧
    (PortfolioAgent.executeDecision ag rec now draws).2.status = DecisionStatus.PENDING ∧
    (PortfolioAgent.executeDecision ag rec now draws).2.status ≠ DecisionStatus.APPROVED ∧
    (PortfolioAgent.executeDecision ag rec now draws).2.status ≠ DecisionStatus.COMPLETED ∧
    (PortfolioAgent.executeDecision ag rec now draws).2.status ≠ DecisionStatus.FAILED := by
  have hsae := fun d => shouldAutoExecute_advisory ag.config d h
  refine ⟨hsae, ?_, ?_, ?_, ?_⟩ <;>
    simp [PortfolioAgent.executeDecision, hsae]

/-- Witness for C1 at a concrete advisory agent and recommendation. -/
theorem advisory_only_never_completes_witness :
    (PortfolioAgent.executeDecision advisoryAgent hedgeRec 0 benignDraws).2.status =
      DecisionStatus.PENDING :=
  (advisory_only_never_completes advisoryAgent hedgeRec 0 benignDraws rfl).2.1

/-- C10: for a `SEMI_AUTO` agent, every branch of `shouldAutoExecute`
demands `FULL_AUTO`, so the gate is closed for every decision — the
same outcome as `ADVISORY_ONLY`. -/
theorem semi_auto_never_executes (c : AgentConfig) (d : AgentDecision)
    (h : c.autonomyLevel = AutonomyLevel.SEMI_AUTO) :
    PortfolioAgent.shouldAutoExecute c d = false ∧
    PortfolioAgent.shouldAutoExecute c d =
      PortfolioAgent.shouldAutoExecute
        { c with autonomyLevel := AutonomyLevel.ADVISORY_ONLY } d := by
  constructor <;> simp [PortfolioAgent.shouldAutoExecute, h]

/-- Witness for C10: a maximal-confidence emergency-hedge decision is
still not auto-executed under `SEMI_AUTO`. -/
theorem semi_auto_never_executes_witness :
    PortfolioAgent.shouldAutoExecute (mkConfig AutonomyLevel.SEMI_AUTO)
      sampleDecision = false :=
  (semi_auto_never_executes (mkConfig AutonomyLevel.SEMI_AUTO) sampleDecision rfl).1

/-- C3: every `executeDecision` call appends exactly one decision (the
one it returns) to the history, leaves every previously recorded entry
in place (the old history is a prefix of the new), increments the
decision counter by one and refreshes the last-decision timestamp —
auto-executed or not; and none of the control operations
(`start`/`stop`/`pause`) touches the history. -/
theorem executeDecision_append_only (ag : Agent) (rec : Recommendation)
    (now : Nat) (draws : Nat → TradeExecutor.Draws) (nid : Nat) :
    (PortfolioAgent.executeDecision ag rec now draws).1.decisionHistory =
      ag.decisionHistory ++ [(PortfolioAgent.executeDecision ag rec now draws).2] ∧
    (PortfolioAgent.executeDecision ag rec now draws).1.decisionHistory.length =
      ag.decisionHistory.length + 1 ∧
    (PortfolioAgent.executeDecision ag rec now draws).1.decisionHistory.take
      ag.decisionHistory.length = ag.decisionHistory ∧
    (PortfolioAgent.executeDecision ag rec now draws).1.state.totalDecisions =
      ag.state.totalDecisions + 1 ∧
    (PortfolioAgent.executeDecision ag rec now draws).1.state.lastDecision = now ∧
    (PortfolioAgent.start ag nid).decisionHistory = ag.decisionHistory ∧
    (PortfolioAgent.stop ag nid).decisionHistory = ag.decisionHistory ∧
    (PortfolioAgent.pause ag nid).decisionHistory = ag.decisionHistory := by
  refine ⟨rfl, by simp [PortfolioAgent.executeDecision], ?_, rfl, rfl, ?_, rfl, rfl⟩
  · have h : (PortfolioAgent.executeDecision ag rec now draws).1.decisionHistory =
        ag.decisionHistory ++ [(PortfolioAgent.executeDecision ag rec now draws).2] := rfl
    rw [h, List.take_left]
  · unfold PortfolioAgent.start
    split <;> rfl

/-- C9: `start()` on a disabled config leaves the status (and the cycle
timer) untouched — in particular a STOPPED agent stays STOPPED — and
records a HIGH `SYSTEM_ERROR` alert as the newest log entry; on an
enabled config it sets the status to ACTIVE (in particular from STOPPED
or PAUSED) and schedules the periodic cycle. -/
theorem start_spec (ag : Agent) (nid : Nat) :
    (ag.config.enabled = false →
      (PortfolioAgent.start ag nid).state.status = ag.state.status ∧
      (PortfolioAgent.start ag nid).timerScheduled = ag.timerScheduled ∧
      (PortfolioAgent.start ag nid).state.alerts.getLast? = some
        { id := nid, severity := Severity.HIGH, type := AlertType.SYSTEM_ERROR,
          message := "Cannot start agent: configuration disabled",
          acknowledged := false }) ∧
    (ag.config.enabled = true →
      (PortfolioAgent.start ag nid).state.status = AgentStatus.ACTIVE ∧
      (PortfolioAgent.start ag nid).timerScheduled = true) := by
  constructor
  · intro hdis
    unfold PortfolioAgent.start
    rw [hdis]
    exact ⟨rfl, rfl, addAlert_getLast? _ _ _ _ _⟩
  · intro hen
    unfold PortfolioAgent.start
    rw [hen]
    exact ⟨rfl, rfl⟩

/-- Witness for C9: the disabled sample agent stays STOPPED with the HIGH
alert logged; the enabled advisory agent becomes ACTIVE. -/
theorem start_spec_witness :
    (PortfolioAgent.start disabledAgent 0).state.status = AgentStatus.STOPPED ∧
    (PortfolioAgent.start disabledAgent 0).state.alerts.getLast? = some
      { id := 0, severity := Severity.HIGH, type := AlertType.SYSTEM_ERROR,
        message := "Cannot start agent: configuration disabled",
        acknowledged := false } ∧
    (PortfolioAgent.start advisoryAgent 0).state.status = AgentStatus.ACTIVE := by
  refine ⟨((start_spec disabledAgent 0).1 rfl).1, ((start_spec disabledAgent 0).1 rfl).2.2,
    ((start_spec advisoryAgent 0).2 rfl).1⟩

/-- C2: `emergencyShutdown` is idempotent and best-effort: a call while a
shutdown is already active is a no-op (so a second call changes nothing);
an effective call sets the one-shot flag, attempts `stop()` on every
registered agent — every agent whose stop does not throw ends STOPPED
with its cycle timer cancelled, regardless of other agents' failures —
appends exactly one notification batch (one message per configured
emergency contact), and halts the monitor's own periodic sweep. -/
theorem emergencyShutdown_spec (m : AgentMonitor.Monitor) (sid : Nat)
    (h : m.emergencyShutdownActive = false) :
    (∀ m' : AgentMonitor.Monitor, ∀ sid' : Nat, m'.emergencyShutdownActive = true →
      AgentMonitor.emergencyShutdown m' sid' = m') ∧
    AgentMonitor.emergencyShutdown (AgentMonitor.emergencyShutdown m sid) sid =
      AgentMonitor.emergencyShutdown m sid ∧
    (AgentMonitor.emergencyShutdown m sid).emergencyShutdownActive = true ∧
    (∀ p ∈ (AgentMonitor.emergencyShutdown m sid).agents, p.2 = false →
      p.1.state.status = AgentStatus.STOPPED ∧ p.1.timerScheduled = false) ∧
    (AgentMonitor.emergencyShutdown m sid).agents.length = m.agents.length ∧
    (AgentMonitor.emergencyShutdown m sid).notificationsSent =
      m.notificationsSent ++ m.config.emergencyContacts ∧
    (AgentMonitor.emergencyShutdown m sid).monitoringActive = false := by
  have hnoop : ∀ m' : AgentMonitor.Monitor, ∀ sid' : Nat,
      m'.emergencyShutdownActive = true →
      AgentMonitor.emergencyShutdown m' sid' = m' := by
    intro m' sid' h'
    unfold AgentMonitor.emergencyShutdown
    rw [h']
    rfl
  have hrun : AgentMonitor.emergencyShutdown m sid =
      { m with
        emergencyShutdownActive := true,
        agents := m.agents.map fun p =>
          if p.2 then p else (PortfolioAgent.stop p.1 sid, p.2),
        notificationsSent := m.notificationsSent ++ m.config.emergencyContacts,
        monitoringActive := false } := by
    unfold AgentMonitor.emergencyShutdown
    rw [h]
    rfl
  refine ⟨hnoop, hnoop _ _ (by rw [hrun]), by rw [hrun], ?_, by simp [hrun],
    by rw [hrun], by rw [hrun]⟩
  intro p hp hpf
  rw [hrun] at hp
  simp only [List.mem_map] at hp
  obtain ⟨q, _, hpq⟩ := hp
  by_cases hq2 : q.2
  · rw [if_pos hq2] at hpq
    rw [← hpq] at hpf
    exact absurd hpf (by simp [hq2])
  · rw [if_neg hq2] at hpq
    rw [← hpq]
    exact ⟨rfl, rfl⟩

/-- Witness for C2 at a concrete monitor holding one stoppable agent and
one whose stop throws. -/
theorem emergencyShutdown_spec_witness :
    AgentMonitor.emergencyShutdown (AgentMonitor.emergencyShutdown sampleMonitor 0) 0 =
      AgentMonitor.emergencyShutdown sampleMonitor 0 ∧
    (AgentMonitor.emergencyShutdown sampleMonitor 0).notificationsSent = ["ops", "cro"] ∧
    (AgentMonitor.emergencyShutdown sampleMonitor 0).monitoringActive = false := by
  have h := emergencyShutdown_spec sampleMonitor 0 rfl
  exact ⟨h.2.1, h.2.2.2.2.2.1, h.2.2.2.2.2.2⟩

/-- C5 counterexample: on the simulated-failure path the executor
returns the *requested* quantity, not quantity 0 — here an order for 5
units fails (`failDraw = 0 ≤ 0.05`) and the returned execution carries
status FAILED, price 0, and quantity 5. -/
theorem simulate_failure_counterexample :
    (TradeExecutor.simulateTradeExecution failOrder failingDraws).status =
      TradeStatus.FAILED ∧
    (TradeExecutor.simulateTradeExecution failOrder failingDraws).price = 0 ∧
    (TradeExecutor.simulateTradeExecution failOrder failingDraws).quantity = 5 ∧
    ¬((TradeExecutor.simulateTradeExecution failOrder failingDraws).quantity = 0) := by
  have h : TradeExecutor.simulateTradeExecution failOrder failingDraws =
      { asset := loanAsset, action := TradeAction.BUY, quantity := 5, price := 0,
        status := TradeStatus.FAILED } := by
    unfold TradeExecutor.simulateTradeExecution
    rw [if_neg (by norm_num [failingDraws])]
    rfl
  exact ⟨by rw [h], by rw [h], by rw [h], by rw [h]; norm_num⟩

/-- C5 amended: whenever the simulated execution fails (the success draw
is ≤ 0.05), the returned execution has status FAILED, price 0, and
quantity equal to the requested quantity. -/
theorem simulate_failure_spec (o : TradeOrder) (d : TradeExecutor.Draws)
    (h : d.failDraw ≤ (1 / 20 : ℚ)) :
    (TradeExecutor.simulateTradeExecution o d).status = TradeStatus.FAILED ∧
    (TradeExecutor.simulateTradeExecution o d).price = 0 ∧
    (TradeExecutor.simulateTradeExecution o d).quantity = o.quantity := by
  unfold TradeExecutor.simulateTradeExecution
  rw [if_neg (by exact not_lt.mpr h)]
  exact ⟨rfl, rfl, rfl⟩

/-- C7 counterexample: the final rounding happens *after* the limit
clamp, so a limit price off the `0.0001` grid can be crossed.  For the
LIMIT BUY with limit `100.00006` (raw price 200, zero impact and
slippage) the clamped price `100.00006` rounds up to `100.0001`, which
exceeds the limit. -/
theorem limit_price_counterexample :
    limitOrder.orderType = OrderType.LIMIT ∧
    limitOrder.action = TradeAction.BUY ∧
    limitOrder.limitPrice = some (10000006 / 100000) ∧
    ¬(TradeExecutor.calculateExecutionPrice limitOrder 0 0 ≤ (10000006 / 100000 : ℚ)) := by
  refine ⟨rfl, rfl, rfl, ?_⟩
  have h : TradeExecutor.calculateExecutionPrice limitOrder 0 0 =
      ((1000001 : ℤ) : ℚ) / 10000 := by
    unfold TradeExecutor.calculateExecutionPrice TradeExecutor.jsRound
    norm_num [limitOrder, stockAsset, min_def]
  rw [h]
  norm_num

/-- C7 amended: for a LIMIT order with a (truthy) limit price that is an
integer multiple of the rounding precision `0.0001`, the rounded
execution price never crosses the limit: BUY executes at ≤ the limit,
SELL at ≥ the limit.  (Off the grid the final rounding can cross the
limit by up to half a step, as the counterexample shows.) -/
theorem limit_price_not_crossed (o : TradeOrder) (mi s lp : ℚ) (n : ℤ)
    (hT : o.orderType = OrderType.LIMIT) (hlp : o.limitPrice = some lp)
    (h0 : lp ≠ 0) (hgrid : lp = (n : ℚ) / 10000) :
    (o.action = TradeAction.BUY → TradeExecutor.calculateExecutionPrice o mi s ≤ lp) ∧
    (o.action = TradeAction.SELL → lp ≤ TradeExecutor.calculateExecutionPrice o mi s) := by
  have hkey : ∀ x : ℚ, x ≤ lp →
      ((TradeExecutor.jsRound (x * 10000) : ℤ) : ℚ) / 10000 ≤ lp := by
    intro x hx
    have h1 : TradeExecutor.jsRound (x * 10000) ≤ n := by
      have h2 := jsRound_mono (mul_le_mul_of_nonneg_right hx (by norm_num : (0:ℚ) ≤ 10000))
      rwa [hgrid, div_mul_cancel₀ _ (by norm_num : (10000:ℚ) ≠ 0), jsRound_intCast] at h2
    rw [hgrid]
    exact div10000_mono h1
  have hkey2 : ∀ x : ℚ, lp ≤ x →
      lp ≤ ((TradeExecutor.jsRound (x * 10000) : ℤ) : ℚ) / 10000 := by
    intro x hx
    have h1 : n ≤ TradeExecutor.jsRound (x * 10000) := by
      have h2 := jsRound_mono (mul_le_mul_of_nonneg_right hx (by norm_num : (0:ℚ) ≤ 10000))
      rwa [hgrid, div_mul_cancel₀ _ (by norm_num : (10000:ℚ) ≠ 0), jsRound_intCast] at h2
    rw [hgrid]
    exact div10000_mono h1
  obtain ⟨ass, oact, qty, otype, olp, stol⟩ := o
  cases hT
  cases hlp
  constructor
  · intro hact
    cases hact
    unfold TradeExecutor.calculateExecutionPrice
    dsimp only
    rw [if_pos rfl, if_pos h0]
    exact hkey _ (min_le_right _ _)
  · intro hact
    cases hact
    unfold TradeExecutor.calculateExecutionPrice
    dsimp only
    rw [if_pos rfl, if_pos h0]
    exact hkey2 _ (le_max_right _ _)

/-- Witness for the amended C7: LIMIT BUY at grid limit 100 against a raw
price of 200 executes at ≤ 100; flipping the same order to SELL executes
at ≥ 100. -/
theorem limit_price_not_crossed_witness :
    TradeExecutor.calculateExecutionPrice gridLimitOrder 0 0 ≤ 100 ∧
    100 ≤ TradeExecutor.calculateExecutionPrice
      { gridLimitOrder with action := TradeAction.SELL } 0 0 := by
  constructor
  · exact (limit_price_not_crossed gridLimitOrder 0 0 100 1000000 rfl rfl
      (by norm_num) (by norm_num)).1 rfl
  · exact (limit_price_not_crossed { gridLimitOrder with action := TradeAction.SELL }
      0 0 100 1000000 rfl rfl (by norm_num) (by norm_num)).2 rfl

/-- C8 counterexample: for a large order (notional 100 > 10% of the
estimated daily volume 1) of requested quantity 1, the minimal fill draw
gives `Math.floor(1 × 0.6) = 0`: the execution is PARTIAL with filled
quantity 0, below the claimed 60% floor. -/
theorem fill_quantity_counterexample :
    TradeExecutor.getEstimatedDailyVolume largeLoanOrder.asset * (1 / 10) <
      largeLoanOrder.quantity * largeLoanOrder.asset.currentPrice ∧
    (TradeExecutor.simulateTradeExecution largeLoanOrder minFillDraws).status =
      TradeStatus.PARTIAL_FILL ∧
    (TradeExecutor.simulateTradeExecution largeLoanOrder minFillDraws).quantity = 0 ∧
    ¬((3 / 5 : ℚ) * largeLoanOrder.quantity ≤
      (TradeExecutor.simulateTradeExecution largeLoanOrder minFillDraws).quantity) := by
  have hvol : TradeExecutor.getEstimatedDailyVolume largeLoanOrder.asset = 1 := by
    simp only [TradeExecutor.getEstimatedDailyVolume, largeLoanOrder, loanAsset]
    rw [if_neg (by decide), if_pos trivial]
    norm_num
  have hcond : TradeExecutor.getEstimatedDailyVolume largeLoanOrder.asset * (1 / 10) <
      largeLoanOrder.quantity * largeLoanOrder.asset.currentPrice := by
    rw [hvol]
    norm_num [largeLoanOrder, loanAsset]
  have hq : TradeExecutor.calculateExecutedQuantity largeLoanOrder minFillDraws.fillDraw = 0 := by
    unfold TradeExecutor.calculateExecutedQuantity
    rw [if_pos hcond]
    norm_num [largeLoanOrder, loanAsset, minFillDraws]
  have hrun : TradeExecutor.simulateTradeExecution largeLoanOrder minFillDraws =
      { asset := largeLoanOrder.asset, action := largeLoanOrder.action,
        quantity := TradeExecutor.calculateExecutedQuantity largeLoanOrder
          minFillDraws.fillDraw,
        price := TradeExecutor.calculateExecutionPrice largeLoanOrder
          (TradeExecutor.calculateMarketImpact largeLoanOrder)
          (TradeExecutor.calculateSlippage largeLoanOrder minFillDraws.volDraw),
        status := if TradeExecutor.calculateExecutedQuantity largeLoanOrder
            minFillDraws.fillDraw = largeLoanOrder.quantity
          then TradeStatus.FILLED else TradeStatus.PARTIAL_FILL } := by
    unfold TradeExecutor.simulateTradeExecution
    rw [if_pos (by norm_num [minFillDraws])]
  refine ⟨hcond, ?_, ?_, ?_⟩
  · rw [hrun]
    rw [hq]
    norm_num [largeLoanOrder]
  · rw [hrun]
    exact hq
  · rw [hrun]
    rw [hq]
    norm_num [largeLoanOrder]

/-- C8 amended: on the non-failing path, the filled quantity never
exceeds the requested quantity; an order whose notional is at most 10%
of the estimated daily volume fills fully with status FILLED; a larger
order fills `⌊quantity × (0.6 + 0.4·fillDraw)⌋` — nominally 60–100% of
the request but, because of the integer floor, possibly below 60% —
with status FILLED when that value happens to equal the request and
PARTIAL otherwise. -/
theorem fill_quantity_spec (o : TradeOrder) (d : TradeExecutor.Draws)
    (hq : 0 ≤ o.quantity) (hf1 : d.fillDraw < 1)
    (hsucc : (1 / 20 : ℚ) < d.failDraw) :
    (TradeExecutor.simulateTradeExecution o d).quantity ≤ o.quantity ∧
    (o.quantity * o.asset.currentPrice ≤
        TradeExecutor.getEstimatedDailyVolume o.asset * (1 / 10) →
      (TradeExecutor.simulateTradeExecution o d).quantity = o.quantity ∧
      (TradeExecutor.simulateTradeExecution o d).status = TradeStatus.FILLED) ∧
    (TradeExecutor.getEstimatedDailyVolume o.asset * (1 / 10) <
        o.quantity * o.asset.currentPrice →
      (TradeExecutor.simulateTradeExecution o d).quantity =
        ((⌊o.quantity * ((3 / 5 : ℚ) + d.fillDraw * (2 / 5))⌋ : ℤ) : ℚ) ∧
      ((TradeExecutor.simulateTradeExecution o d).quantity = o.quantity →
        (TradeExecutor.simulateTradeExecution o d).status = TradeStatus.FILLED) ∧
      ((TradeExecutor.simulateTradeExecution o d).quantity ≠ o.quantity →
        (TradeExecutor.simulateTradeExecution o d).status = TradeStatus.PARTIAL_FILL)) := by
  have hrun : TradeExecutor.simulateTradeExecution o d =
      { asset := o.asset, action := o.action,
        quantity := TradeExecutor.calculateExecutedQuantity o d.fillDraw,
        price := TradeExecutor.calculateExecutionPrice o
          (TradeExecutor.calculateMarketImpact o)
          (TradeExecutor.calculateSlippage o d.volDraw),
        status := if TradeExecutor.calculateExecutedQuantity o d.fillDraw = o.quantity
          then TradeStatus.FILLED else TradeStatus.PARTIAL_FILL } := by
    unfold TradeExecutor.simulateTradeExecution
    rw [if_pos hsucc]
  by_cases hbig : TradeExecutor.getEstimatedDailyVolume o.asset * (1 / 10) <
      o.quantity * o.asset.currentPrice
  · have hceq : TradeExecutor.calculateExecutedQuantity o d.fillDraw =
        ((⌊o.quantity * ((3 / 5 : ℚ) + d.fillDraw * (2 / 5))⌋ : ℤ) : ℚ) := by
      unfold TradeExecutor.calculateExecutedQuantity
      rw [if_pos hbig]
    have hle : TradeExecutor.calculateExecutedQuantity o d.fillDraw ≤ o.quantity := by
      rw [hceq]
      refine le_trans (Int.floor_le _) ?_
      exact mul_le_of_le_one_right hq (by linarith)
    refine ⟨by rw [hrun]; exact hle, fun hsmall => absurd hsmall (not_le.mpr hbig), ?_⟩
    intro _
    refine ⟨by rw [hrun]; exact hceq, ?_, ?_⟩
    · intro heq
      rw [hrun] at heq ⊢
      rw [if_pos heq]
    · intro hne
      rw [hrun] at hne ⊢
      rw [if_neg hne]
  · have hceq : TradeExecutor.calculateExecutedQuantity o d.fillDraw = o.quantity := by
      unfold TradeExecutor.calculateExecutedQuantity
      rw [if_neg hbig]
    refine ⟨by rw [hrun]; exact le_of_eq hceq, fun _ => ⟨by rw [hrun]; exact hceq, ?_⟩,
      fun hlarge => absurd hlarge hbig⟩
    rw [hrun]
    rw [if_pos hceq]

/-- Witness for the amended C8 at a small fully-filling order and the
large partially-filling one. -/
theorem fill_quantity_spec_witness :
    (TradeExecutor.simulateTradeExecution largeLoanOrder minFillDraws).quantity ≤
      largeLoanOrder.quantity ∧
    (TradeExecutor.simulateTradeExecution
      { largeLoanOrder with quantity := 1 / 10000 } minFillDraws).quantity =
      (1 / 10000 : ℚ) := by
  constructor
  · exact (fill_quantity_spec largeLoanOrder minFillDraws (by norm_num [largeLoanOrder])
      (by norm_num [minFillDraws]) (by norm_num [minFillDraws])).1
  · refine ((fill_quantity_spec { largeLoanOrder with quantity := 1 / 10000 } minFillDraws
      (by norm_num) (by norm_num [minFillDraws]) (by norm_num [minFillDraws])).2.1 ?_).1
    simp only [TradeExecutor.getEstimatedDailyVolume, largeLoanOrder, loanAsset]
    rw [if_neg (by decide), if_pos trivial]
    norm_num

/-- C6 counterexample: with `maxTradesPerHour = 1`, ten trades already
executed today (none in the last hour) still pass the gate.  Ten has
reached every configured daily figure in `TradingLimits` — the only
daily field, `maxDailyTradeVolume`, is 5 — yet the candidate is not
skipped, because the code compares the daily count against the derived
`maxTradesPerHour × 24 = 24`, not against a configured daily limit. -/
theorem trading_limits_counterexample :
    (mkConfig AutonomyLevel.FULL_AUTO).tradingLimits.maxTradesPerHour = 1 ∧
    (mkConfig AutonomyLevel.FULL_AUTO).tradingLimits.maxDailyTradeVolume = 5 ∧
    (PortfolioAgent.getTodayTrades limitsHistory limitsNow).length = 10 ∧
    (PortfolioAgent.getHourlyTrades limitsHistory limitsNow).length = 0 ∧
    PortfolioAgent.isWithinTradingLimits (mkConfig AutonomyLevel.FULL_AUTO)
      limitsHistory limitsNow = true := by
  refine ⟨rfl, rfl, ?_, ?_, ?_⟩ <;>
    simp [PortfolioAgent.isWithinTradingLimits, PortfolioAgent.getTodayTrades,
      PortfolioAgent.getHourlyTrades, PortfolioAgent.sameDay, PortfolioAgent.tradesOf,
      PortfolioAgent.msPerDay, PortfolioAgent.msPerHour, limitsHistory, limitsNow,
      pastDecision, mkConfig, sampleTradingLimits]

/-- C6 amended: the gate passes exactly when today's executed-trade
count is under `maxTradesPerHour × 24` — a bound *derived* from the
hourly limit (no configured daily trade-count limit exists) — and the
last hour's executed-trade count is under `maxTradesPerHour`. -/
theorem isWithinTradingLimits_iff (config : AgentConfig)
    (history : List AgentDecision) (now : Nat) :
    PortfolioAgent.isWithinTradingLimits config history now = true ↔
      (((history.filter fun d => PortfolioAgent.sameDay d.timestamp now).map
          fun d => (PortfolioAgent.tradesOf d).length).sum <
        config.tradingLimits.maxTradesPerHour * 24 ∧
       ((history.filter fun d =>
          decide (now - PortfolioAgent.msPerHour < d.timestamp)).map
          fun d => (PortfolioAgent.tradesOf d).length).sum <
        config.tradingLimits.maxTradesPerHour) := by
  unfold PortfolioAgent.isWithinTradingLimits PortfolioAgent.getTodayTrades
    PortfolioAgent.getHourlyTrades
  simp [List.length_flatten, Function.comp_def]

/-- C4 counterexample: `getState` returns a shallow copy, so a caller
mutating the nested alerts array through the returned snapshot *does*
change the agent's internal state: acknowledging alert 7 through the
snapshot changes the alert list the agent itself sees at its own
`alertsRef`. -/
theorem getState_counterexample :
    (AgentMonitor.acknowledgeAlert sampleHeap sampleStateObj 7).1
        sampleStateObj.alertsRef ≠ sampleHeap sampleStateObj.alertsRef := by
  decide

/-- C4 amended: `getState` copies the state object's fields — so the
snapshot is field-wise identical to the internal state, *including the
shared nested `alertsRef`* — and hence a mutation performed through the
snapshot's nested alerts array lands in the agent's internal alerts;
`acknowledgeAlert` depends on exactly this sharing: when the alert is
found, it reports success and the agent's own alerts now contain that
alert acknowledged. -/
theorem getState_shallow_copy (h : Heap) (s : StateObj) (i : Nat)
    (hf : ∃ a ∈ h s.alertsRef, a.id = i) :
    PortfolioAgent.getState s = s ∧
    (AgentMonitor.acknowledgeAlert h s i).2 = true ∧
    (AgentMonitor.acknowledgeAlert h s i).1 s.alertsRef =
      AgentMonitor.ackFirst (h s.alertsRef) i ∧
    ∃ a ∈ (AgentMonitor.acknowledgeAlert h s i).1 s.alertsRef,
      a.id = i ∧ a.acknowledged = true := by
  have hfind : ((h s.alertsRef).find? fun a => decide (a.id = i)).isSome := by
    rw [List.find?_isSome]
    obtain ⟨a, ha, hai⟩ := hf
    exact ⟨a, ha, by simp [hai]⟩
  have hack : AgentMonitor.acknowledgeAlert h s i =
      (heapUpdate h s.alertsRef (AgentMonitor.ackFirst (h s.alertsRef) i), true) := by
    unfold AgentMonitor.acknowledgeAlert PortfolioAgent.getState
    dsimp only
    rw [if_pos hfind]
  have hat : (AgentMonitor.acknowledgeAlert h s i).1 s.alertsRef =
      AgentMonitor.ackFirst (h s.alertsRef) i := by
    rw [hack]
    show heapUpdate h s.alertsRef (AgentMonitor.ackFirst (h s.alertsRef) i) s.alertsRef = _
    unfold heapUpdate
    rw [if_pos rfl]
  refine ⟨rfl, by rw [hack], hat, ?_⟩
  rw [hat]
  exact ackFirst_mem _ _ hf

/-- Witness for the amended C4 at the concrete heap and agent state. -/
theorem getState_shallow_copy_witness :
    (AgentMonitor.acknowledgeAlert sampleHeap sampleStateObj 7).2 = true ∧
    ∃ a ∈ (AgentMonitor.acknowledgeAlert sampleHeap sampleStateObj 7).1
        sampleStateObj.alertsRef, a.id = 7 ∧ a.acknowledged = true := by
  have h := getState_shallow_copy sampleHeap sampleStateObj 7
    ⟨varAlert, by simp [sampleHeap], rfl⟩
  exact ⟨h.2.1, h.2.2.2⟩

/-- Witness for the amended C5 at the concrete failing order. -/
theorem simulate_failure_spec_witness :
    (TradeExecutor.simulateTradeExecution failOrder failingDraws).status =
      TradeStatus.FAILED ∧
    (TradeExecutor.simulateTradeExecution failOrder failingDraws).quantity =
      failOrder.quantity :=
  ⟨(simulate_failure_spec failOrder failingDraws (by norm_num [failingDraws])).1,
   (simulate_failure_spec failOrder failingDraws (by norm_num [failingDraws])).2.2⟩

end Advisory
